import Mathlib

/-
Verification of the video-detection pipeline in deploy.py.

The program is a streamlit app: `load_model` (memoized by st.cache_resource),
`process_video` (OpenCV frame loop running a YOLO model per frame), and `main`
(the per-upload session: persist upload to a temp file, transcode with ffmpeg,
detect, present the output, and clean up the three temp files in a finally
block).

External collaborators (streamlit UI calls, cv2 capture/writer, the ffmpeg
binary, the YOLO constructor, tempfile) are not part of the repository; their
observable outcomes are supplied as explicit parameters (an `Env`), and the
control flow of deploy.py over those outcomes is embedded faithfully below.
-/

/-- A video frame, abstract (its pixel content never matters to the control
flow of deploy.py). -/
abbrev Frame := Nat

/-- UI messages emitted through st.error / st.info / st.success in deploy.py,
one constructor per call site, with the dynamic payloads the f-strings carry. -/
inductive Msg where
  | errOpenInput (path : String)
  | errOpenWriter
  | infoStandardizing
  | infoProcessing
  | errNoOutput
  | errFfmpegFailed
  | errFfmpegDetails (stderr : String)
  | errUnexpected (msg : String)
  | errModelNotFound
  | infoModelPlace
  | errModelLoad (msg : String)
  | successModelLoaded
  deriving DecidableEq

/-- Literal text of each streamlit message in deploy.py (the quotes around
best.pt in the st.info line are elided). -/
def Msg.text : Msg → String
  | .errOpenInput p => "Error: Could not open pre-processed video file at " ++ p
  | .errOpenWriter => "Error: Could not open video writer."
  | .infoStandardizing => "Standardizing video with FFmpeg..."
  | .infoProcessing => "Processing the standardized video for object detection..."
  | .errNoOutput => "Processing failed to produce a video file."
  | .errFfmpegFailed => "FFmpeg failed to process the video. This can happen with certain video formats."
  | .errFfmpegDetails s => "FFmpeg Error Details: " ++ s
  | .errUnexpected m => "An unexpected error occurred: " ++ m
  | .errModelNotFound => "Error: The model file was not found at the path: best.pt"
  | .infoModelPlace => "Please make sure the best.pt file is located in the correct directory."
  | .errModelLoad m => "An error occurred while loading the model: " ++ m
  | .successModelLoaded => "Model loaded successfully!"

/-- Outcome of `cv2.VideoCapture(input_path)`: whether it opened, the geometry
and rate it reports, and the finite sequence of frames successive `cap.read()`
calls yield before `ret` turns false. -/
structure Capture where
  opened : Bool
  width : Nat
  height : Nat
  fps : ℚ
  frames : List Frame
  deriving DecidableEq

/-- IMG_SIZE in process_video. -/
def IMG_SIZE : Nat := 640

/-- CONF_THRESHOLD in process_video (0.5). -/
def CONF_THRESHOLD : ℚ := 1 / 2

/-- The while loop of process_video: read frames in order until exhausted,
run `model(frame, imgsz=IMG_SIZE, conf=CONF_THRESHOLD)`, render, and write the
result. The model-plus-plot step for one frame is the function `model`.
Structural recursion on the remaining frames: the loop terminates exactly when
the input sequence is exhausted. -/
def detectLoop (model : Frame → Nat → ℚ → Frame) : List Frame → List Frame
  | [] => []
  | frame :: rest => model frame IMG_SIZE CONF_THRESHOLD :: detectLoop model rest

/-- Observable result of process_video when it returns normally: the messages
it showed, the frames written to the output, the geometry the writer was
opened with, and whether control reached the read/write loop. -/
structure ProcOut where
  messages : List Msg
  written : List Frame
  outWidth : Nat
  outHeight : Nat
  reachedLoop : Bool
  deriving DecidableEq

/-- process_video from deploy.py. `cap` is the outcome of opening
`input_path`; `writerOpened` is whether `cv2.VideoWriter(...).isOpened()`;
`inferExc` is `some m` when the model raises an exception `m` once invoked on
a frame (the spec: any per-frame inference exception propagates and aborts the
whole video); `Except.error` is a propagating Python exception, `Except.ok`
a normal return (the Python function returns None in every normal branch). -/
def process_video (input_path : String) (cap : Capture) (writerOpened : Bool)
    (inferExc : Option String) (model : Frame → Nat → ℚ → Frame) :
    Except String ProcOut :=
  if !cap.opened then
    Except.ok
      { messages := [.errOpenInput input_path], written := [],
        outWidth := 0, outHeight := 0, reachedLoop := false }
  else if !writerOpened then
    Except.ok
      { messages := [.errOpenWriter], written := [],
        outWidth := cap.width, outHeight := cap.height, reachedLoop := false }
  else
    match inferExc with
    | some m =>
      if cap.frames.isEmpty then
        Except.ok
          { messages := [], written := [],
            outWidth := cap.width, outHeight := cap.height, reachedLoop := true }
      else Except.error m
    | none =>
      Except.ok
        { messages := [], written := detectLoop model cap.frames,
          outWidth := cap.width, outHeight := cap.height, reachedLoop := true }

/-- A Python exception as caught by main's except clauses: either
subprocess.CalledProcessError (carrying ffmpeg's stderr) or any other
exception (carrying its rendered message). -/
inductive PyExc where
  | calledProcess (stderr : String)
  | generic (msg : String)
  deriving DecidableEq

/-- Environment of one upload session in main: the outcomes of every external
interaction the try block performs. `mkInExc` / `mkDownExc` / `mkOutExc` are
`some m` when creating-and-filling the corresponding NamedTemporaryFile raises
exception `m`; `transcodeExit` / `transcodeStderr` are the ffmpeg subprocess
exit code and captured stderr; `cap`, `writerOpened`, `inferExc` feed
process_video; `encodedSize` is the byte size the output file has once the
writer stage has run; `model` is the per-frame detect-and-render function. -/
structure Env where
  downPath : String
  mkInExc : Option String
  mkDownExc : Option String
  transcodeExit : Nat
  transcodeStderr : String
  mkOutExc : Option String
  cap : Capture
  writerOpened : Bool
  inferExc : Option String
  encodedSize : Nat
  model : Frame → Nat → ℚ → Frame

/-- Observable state of one upload session: messages shown so far, which of
the three temp-path variables were assigned, which of the three temp files
exist on disk, the output file size, whether process_video was invoked,
whether the result video and download button were presented, and the pending
exception (none once handled). -/
structure TryState where
  messages : List Msg
  inputSet : Bool
  downSet : Bool
  outSet : Bool
  inputExists : Bool
  downExists : Bool
  outputExists : Bool
  outSize : Nat
  detectionEntered : Bool
  videoShown : Bool
  downloadOffered : Bool
  exc : Option PyExc
  deriving DecidableEq

/-- The try block of main's upload branch (deploy.py lines 68-109), step by
step: create/fill the input temp file, st.info, create the downscaled temp
file, run ffmpeg (check=True raises CalledProcessError on nonzero exit),
st.info, create the output temp file, call process_video, then show the video
and a download button when the output file exists with positive size, else
the errNoOutput message. Reading the output bytes is folded into the
presentation step. -/
def tryBlock (env : Env) : TryState :=
  match env.mkInExc with
  | some m =>
    { messages := [], inputSet := false, downSet := false, outSet := false,
      inputExists := false, downExists := false, outputExists := false, outSize := 0,
      detectionEntered := false, videoShown := false, downloadOffered := false,
      exc := some (.generic m) }
  | none =>
    match env.mkDownExc with
    | some m =>
      { messages := [.infoStandardizing], inputSet := true, downSet := false, outSet := false,
        inputExists := true, downExists := false, outputExists := false, outSize := 0,
        detectionEntered := false, videoShown := false, downloadOffered := false,
        exc := some (.generic m) }
    | none =>
      if env.transcodeExit ≠ 0 then
        { messages := [.infoStandardizing], inputSet := true, downSet := true, outSet := false,
          inputExists := true, downExists := true, outputExists := false, outSize := 0,
          detectionEntered := false, videoShown := false, downloadOffered := false,
          exc := some (.calledProcess env.transcodeStderr) }
      else
        match env.mkOutExc with
        | some m =>
          { messages := [.infoStandardizing, .infoProcessing],
            inputSet := true, downSet := true, outSet := false,
            inputExists := true, downExists := true, outputExists := false, outSize := 0,
            detectionEntered := false, videoShown := false, downloadOffered := false,
            exc := some (.generic m) }
        | none =>
          match process_video env.downPath env.cap env.writerOpened env.inferExc env.model with
          | Except.error m =>
            { messages := [.infoStandardizing, .infoProcessing],
              inputSet := true, downSet := true, outSet := true,
              inputExists := true, downExists := true, outputExists := true,
              outSize := env.encodedSize,
              detectionEntered := true, videoShown := false, downloadOffered := false,
              exc := some (.generic m) }
          | Except.ok p =>
            if (if p.reachedLoop then env.encodedSize else 0) > 0 then
              { messages := [.infoStandardizing, .infoProcessing] ++ p.messages,
                inputSet := true, downSet := true, outSet := true,
                inputExists := true, downExists := true, outputExists := true,
                outSize := if p.reachedLoop then env.encodedSize else 0,
                detectionEntered := true, videoShown := true, downloadOffered := true,
                exc := none }
            else
              { messages := ([.infoStandardizing, .infoProcessing] ++ p.messages) ++ [.errNoOutput],
                inputSet := true, downSet := true, outSet := true,
                inputExists := true, downExists := true, outputExists := true,
                outSize := if p.reachedLoop then env.encodedSize else 0,
                detectionEntered := true, videoShown := false, downloadOffered := false,
                exc := none }

/-- The two except clauses of main: CalledProcessError shows the ffmpeg
failure message plus the tool's stderr verbatim; any other exception shows
the generic unexpected-error message. -/
def applyHandlers (t : TryState) : TryState :=
  match t.exc with
  | none => t
  | some (.calledProcess stderr) =>
    { t with
      messages := t.messages ++ [.errFfmpegFailed, .errFfmpegDetails stderr],
      exc := none }
  | some (.generic m) =>
    { t with messages := t.messages ++ [.errUnexpected m], exc := none }

/-- The finally block of main: for each of the three temp files, if its path
variable was assigned and the file exists, os.remove it. -/
def cleanupFiles (t : TryState) : TryState :=
  { t with
    inputExists := if t.inputSet && t.inputExists then false else t.inputExists,
    downExists := if t.downSet && t.downExists then false else t.downExists,
    outputExists := if t.outSet && t.outputExists then false else t.outputExists }

/-- One whole upload session: try block, then except handlers, then finally. -/
def sessionRun (env : Env) : TryState :=
  cleanupFiles (applyHandlers (tryBlock env))

/-- Result of main's startup section (deploy.py lines 49-62): the messages
shown and whether control reached the st.file_uploader call. -/
structure StartupOut where
  messages : List Msg
  uploaderShown : Bool
  deriving DecidableEq

/-- Startup section of main: if best.pt does not exist, show the fixed error
and info messages and return; otherwise load the model (loadExc abstracts an
exception from load_model), showing either the load-failure message and
returning, or the success message and presenting the upload widget. -/
def mainStartup (modelFileExists : Bool) (loadExc : Option String) : StartupOut :=
  if !modelFileExists then
    { messages := [.errModelNotFound, .infoModelPlace], uploaderShown := false }
  else
    match loadExc with
    | some e => { messages := [.errModelLoad e], uploaderShown := false }
    | none => { messages := [.successModelLoaded], uploaderShown := true }

/-- Handle of a loaded detection model: the path it was loaded from plus a
load sequence number distinguishing separate underlying loads. -/
structure ModelHandle where
  path : String
  loadId : Nat
  deriving DecidableEq

/-- The failure of loading a model artifact (the exception propagating out of
the YOLO constructor). -/
structure ModelLoadError where
  msg : String
  deriving DecidableEq

/-- Modelled from the spec: the external YOLO constructor (not part of this
repository) returns a model handle, and fails if the path does not exist or
the file at the path is not a valid model artifact. `fsExists` and
`validArtifact` describe the file system seen by the loader. -/
def yoloLoad (fsExists validArtifact : String → Bool) (path : String) (loadId : Nat) :
    Except ModelLoadError ModelHandle :=
  if fsExists path && validArtifact path then Except.ok ⟨path, loadId⟩
  else Except.error ⟨"invalid or missing model artifact: " ++ path⟩

/-- Process-wide model cache state: the st.cache_resource table keyed by path,
plus how many underlying loads have been performed. -/
structure CacheState where
  cache : List (String × ModelHandle)
  loads : Nat
  deriving DecidableEq

/-- load_model from deploy.py under its st.cache_resource decorator. The
memoization is modelled from the spec (streamlit is not part of this
repository): a call first consults the cache keyed by path; on a hit the
cached handle is returned with no new load; on a miss the body (just the YOLO
constructor) runs, a success is stored in the cache, and a failure propagates
uncached. -/
def load_model (fsExists validArtifact : String → Bool) (st : CacheState) (path : String) :
    CacheState × Except ModelLoadError ModelHandle :=
  match st.cache.lookup path with
  | some h => (st, Except.ok h)
  | none =>
    match yoloLoad fsExists validArtifact path st.loads with
    | Except.ok h => ({ cache := (path, h) :: st.cache, loads := st.loads + 1 }, Except.ok h)
    | Except.error e => (st, Except.error e)

/-- Keys of the model cache are pairwise distinct. -/
def CacheKeysNodup (st : CacheState) : Prop :=
  (st.cache.map Prod.fst).Nodup

/-- Modelled from the spec: ffmpeg's -2 scale target (ffmpeg is not part of
this repository) scales the axis proportionally and rounds to the nearest even
integer (ties upward): num/den rounded to a multiple of 2. -/
def roundToEven (num den : Nat) : Nat := 2 * ((num + den) / (2 * den))

/-- The fixed -vf argument of the ffmpeg command in deploy.py,
scale=if(gt(a,1),1280,-2):if(gt(a,1),-2,1280), as a map from input
width and height to output width and height (a is the input aspect ratio
iw/ih, with square pixels, so gt(a,1) is ih < iw). -/
def scaleFilter (iw ih : Nat) : Nat × Nat :=
  if ih < iw then (1280, roundToEven (1280 * ih) iw)
  else (roundToEven (1280 * iw) ih, 1280)

/-- Concrete capture fixture: opened, 4x4 at 30 fps, three frames. -/
def capW : Capture := ⟨true, 4, 4, 30, [0, 1, 2]⟩

/-- Concrete capture fixture that fails to open. -/
def capBad : Capture := ⟨false, 0, 0, 0, []⟩

/-- Concrete per-frame model fixture. -/
def mAdd : Frame → Nat → ℚ → Frame := fun f _ _ => f + 1

/-- A second, different concrete per-frame model fixture. -/
def mDouble : Frame → Nat → ℚ → Frame := fun f _ _ => 2 * f

/-- Concrete session environment fixture: everything succeeds except the
capture of the transcoded file fails to open. -/
def envCapFail : Env :=
  { downPath := "down.mp4", mkInExc := none, mkDownExc := none,
    transcodeExit := 0, transcodeStderr := "", mkOutExc := none,
    cap := capBad, writerOpened := true, inferExc := none,
    encodedSize := 9, model := mAdd }

/-- Concrete session environment fixture: ffmpeg exits nonzero. -/
def envFfmpegFail : Env :=
  { downPath := "down.mp4", mkInExc := none, mkDownExc := none,
    transcodeExit := 1, transcodeStderr := "moov atom not found", mkOutExc := none,
    cap := capW, writerOpened := true, inferExc := none,
    encodedSize := 9, model := mAdd }

/-- The loop of process_video is exactly a map of the per-frame step over the
input frames, in order. -/
theorem detectLoop_eq_map (model : Frame → Nat → ℚ → Frame) (l : List Frame) :
    detectLoop model l = l.map (fun f => model f IMG_SIZE CONF_THRESHOLD) := by
  induction l with
  | nil => rfl
  | cons a t ih => simp [detectLoop, ih]

/-- C4: for every finite input frame sequence that process_video successfully
opens for reading and writing (capture opened, writer opened, no per-frame
inference exception), it returns normally and the output contains exactly one
processed frame per input frame, in the original input order, each obtained by
running the model at input resolution 640 and confidence threshold 0.5; the
loop (structural recursion on the finite frame list) terminates when the input
is exhausted. -/
theorem c4_frame_loop_exact (input_path : String) (cap : Capture)
    (model : Frame → Nat → ℚ → Frame) (hopen : cap.opened = true) :
    ∃ p : ProcOut, process_video input_path cap true none model = Except.ok p ∧
      p.written = cap.frames.map (fun f => model f 640 (1 / 2)) ∧
      p.written.length = cap.frames.length := by
  refine ⟨{ messages := [], written := detectLoop model cap.frames,
            outWidth := cap.width, outHeight := cap.height, reachedLoop := true },
          ?_, ?_, ?_⟩
  · simp [process_video, hopen]
  · simp [detectLoop_eq_map, IMG_SIZE, CONF_THRESHOLD]
  · simp [detectLoop_eq_map]

/-- C4 witness at a concrete three-frame capture and a concrete model. -/
theorem c4_frame_loop_exact_witness :
    capW.opened = true ∧
    (∃ p : ProcOut, process_video ("down.mp4") capW true none mAdd = Except.ok p ∧
      p.written = capW.frames.map (fun f => mAdd f 640 (1 / 2)) ∧
      p.written.length = capW.frames.length) :=
  ⟨rfl, c4_frame_loop_exact ("down.mp4") capW mAdd rfl⟩

/-- C9: two runs of process_video on a byte-identical (hence identical)
transcoded input, with possibly different per-frame detection behaviour,
produce outputs with the same frame count and the same dimensions. -/
theorem c9_two_run_geometry (input_path : String) (cap : Capture)
    (m1 m2 : Frame → Nat → ℚ → Frame) (hopen : cap.opened = true) :
    ∃ p1 p2 : ProcOut,
      process_video input_path cap true none m1 = Except.ok p1 ∧
      process_video input_path cap true none m2 = Except.ok p2 ∧
      p1.written.length = p2.written.length ∧
      p1.outWidth = p2.outWidth ∧ p1.outHeight = p2.outHeight := by
  refine ⟨{ messages := [], written := detectLoop m1 cap.frames,
            outWidth := cap.width, outHeight := cap.height, reachedLoop := true },
          { messages := [], written := detectLoop m2 cap.frames,
            outWidth := cap.width, outHeight := cap.height, reachedLoop := true },
          ?_, ?_, ?_, rfl, rfl⟩
  · simp [process_video, hopen]
  · simp [process_video, hopen]
  · simp [detectLoop_eq_map]

/-- C9 witness at a concrete capture with two genuinely different models. -/
theorem c9_two_run_geometry_witness :
    capW.opened = true ∧
    (∃ p1 p2 : ProcOut,
      process_video ("down.mp4") capW true none mAdd = Except.ok p1 ∧
      process_video ("down.mp4") capW true none mDouble = Except.ok p2 ∧
      p1.written.length = p2.written.length ∧
      p1.outWidth = p2.outWidth ∧ p1.outHeight = p2.outHeight) :=
  ⟨rfl, c9_two_run_geometry ("down.mp4") capW mAdd mDouble rfl⟩

/-- C1 counterexample: at a concrete input whose capture fails to open, and at
a concrete input whose writer fails to open, process_video returns normally
(Except.ok, the Python function returns None after st.error): no exception -
in particular no VideoOpenError or VideoWriteError - is raised, contrary to
the claim. -/
theorem c1_counterexample_no_exception :
    process_video ("in.mp4") capBad true none mAdd =
      Except.ok { messages := [.errOpenInput ("in.mp4")], written := [],
                  outWidth := 0, outHeight := 0, reachedLoop := false } ∧
    process_video ("in.mp4") capW false none mAdd =
      Except.ok { messages := [.errOpenWriter], written := [],
                  outWidth := capW.width, outHeight := capW.height, reachedLoop := false } :=
  ⟨rfl, rfl⟩

/-- C1 amended: when the input capture cannot be opened, process_video shows
the open-failure error message and returns normally with no frame written;
when the capture opens but the writer cannot be opened, it shows the
writer-failure error message, releases the capture, and returns normally with
no frame written. No exception is raised in either case. -/
theorem c1_amended_error_reporting (input_path : String) (cap : Capture) (w : Bool)
    (inferExc : Option String) (model : Frame → Nat → ℚ → Frame) :
    (cap.opened = false →
      process_video input_path cap w inferExc model =
        Except.ok { messages := [.errOpenInput input_path], written := [],
                    outWidth := 0, outHeight := 0, reachedLoop := false }) ∧
    (cap.opened = true → w = false →
      process_video input_path cap w inferExc model =
        Except.ok { messages := [.errOpenWriter], written := [],
                    outWidth := cap.width, outHeight := cap.height, reachedLoop := false }) := by
  constructor
  · intro h
    simp [process_video, h]
  · intro h hw
    simp [process_video, h, hw]

/-- C1 amended witness at a concrete unopenable capture. -/
theorem c1_amended_error_reporting_witness :
    capBad.opened = false ∧
    process_video ("in2.mp4") capBad true none mAdd =
      Except.ok { messages := [.errOpenInput ("in2.mp4")], written := [],
                  outWidth := 0, outHeight := 0, reachedLoop := false } :=
  ⟨rfl, (c1_amended_error_reporting ("in2.mp4") capBad true none mAdd).1 rfl⟩

/-- C8: when the model file best.pt is absent at startup, main shows the fixed
error and info messages and returns normally (no crash: the startup function
totally evaluates to this result for every model-load outcome), and the upload
widget is never presented. -/
theorem c8_missing_model_startup (loadExc : Option String) :
    mainStartup false loadExc =
      { messages := [.errModelNotFound, .infoModelPlace], uploaderShown := false } := by
  rfl

/-- Session invariant: along every path of the try block, a temp file can only
exist on disk if its path variable was assigned. -/
theorem tryBlock_exists_imp_set (env : Env) :
    ((tryBlock env).inputExists = true → (tryBlock env).inputSet = true) ∧
    ((tryBlock env).downExists = true → (tryBlock env).downSet = true) ∧
    ((tryBlock env).outputExists = true → (tryBlock env).outSet = true) := by
  unfold tryBlock
  repeat' split
  all_goals simp

/-- The except handlers change only the message list and the pending
exception, not the file flags. -/
theorem applyHandlers_preserves (t : TryState) :
    (applyHandlers t).inputSet = t.inputSet ∧ (applyHandlers t).downSet = t.downSet ∧
    (applyHandlers t).outSet = t.outSet ∧ (applyHandlers t).inputExists = t.inputExists ∧
    (applyHandlers t).downExists = t.downExists ∧
    (applyHandlers t).outputExists = t.outputExists := by
  unfold applyHandlers
  split <;> simp

/-- The finally block deletes every temp file whose path variable was
assigned; if existence implies assignment, nothing survives it. -/
theorem cleanupFiles_clears (t : TryState)
    (h1 : t.inputExists = true → t.inputSet = true)
    (h2 : t.downExists = true → t.downSet = true)
    (h3 : t.outputExists = true → t.outSet = true) :
    (cleanupFiles t).inputExists = false ∧ (cleanupFiles t).downExists = false ∧
    (cleanupFiles t).outputExists = false := by
  refine ⟨?_, ?_, ?_⟩
  · cases he : t.inputExists
    · simp [cleanupFiles, he]
    · simp [cleanupFiles, he, h1 he]
  · cases he : t.downExists
    · simp [cleanupFiles, he]
    · simp [cleanupFiles, he, h2 he]
  · cases he : t.outputExists
    · simp [cleanupFiles, he]
    · simp [cleanupFiles, he, h3 he]

/-- C2: for every session environment - whichever terminal state is reached,
including an exception raised at any stage of the pipeline - none of the three
session temp files (upload, transcoded, output) exists once the session ends. -/
theorem c2_temp_files_cleaned (env : Env) :
    (sessionRun env).inputExists = false ∧ (sessionRun env).downExists = false ∧
    (sessionRun env).outputExists = false := by
  obtain ⟨ps1, ps2, ps3, pe1, pe2, pe3⟩ := applyHandlers_preserves (tryBlock env)
  obtain ⟨i1, i2, i3⟩ := tryBlock_exists_imp_set env
  exact cleanupFiles_clears (applyHandlers (tryBlock env))
    (by rw [pe1, ps1]; exact i1) (by rw [pe2, ps2]; exact i2) (by rw [pe3, ps3]; exact i3)

/-- Helper for text comparison: taking a prefix of an append of the prefix
length returns the prefix. -/
theorem take_len_append {α : Type} (l₁ l₂ : List α) : (l₁ ++ l₂).take l₁.length = l₁ := by
  induction l₁ with
  | nil => rfl
  | cons a t ih => simp [ih]

/-- The literal text shown for an ffmpeg tool failure differs from the literal
text shown for a generic unexpected error, whatever the rendered exception. -/
theorem ffmpeg_text_ne_generic_text (m : String) :
    Msg.text Msg.errFfmpegFailed ≠ Msg.text (Msg.errUnexpected m) := by
  intro h
  have h2 := congrArg String.data h
  simp only [Msg.text] at h2
  rw [String.data_append] at h2
  have h3 := congrArg (List.take (("An unexpected error occurred: ").data.length)) h2
  rw [take_len_append] at h3
  exact absurd h3 (by decide)

/-- C5: when ffmpeg exits nonzero, the session shows the ffmpeg failure
message followed by the tool's stderr verbatim, the detection stage is never
entered for that upload, and the tool-failure message differs from the generic
unexpected-error message, both as UI events and as literal text. -/
theorem c5_transcode_failure (env : Env)
    (h1 : env.mkInExc = none) (h2 : env.mkDownExc = none) (h3 : env.transcodeExit ≠ 0) :
    (sessionRun env).messages =
      [Msg.infoStandardizing, Msg.errFfmpegFailed, Msg.errFfmpegDetails env.transcodeStderr] ∧
    Msg.text (Msg.errFfmpegDetails env.transcodeStderr) =
      "FFmpeg Error Details: " ++ env.transcodeStderr ∧
    (sessionRun env).detectionEntered = false ∧
    (∀ m, Msg.errFfmpegFailed ≠ Msg.errUnexpected m) ∧
    (∀ m, Msg.text Msg.errFfmpegFailed ≠ Msg.text (Msg.errUnexpected m)) := by
  refine ⟨?_, rfl, ?_, fun m h => Msg.noConfusion h, ffmpeg_text_ne_generic_text⟩
  · simp [sessionRun, cleanupFiles, applyHandlers, tryBlock, h1, h2, h3]
  · simp [sessionRun, cleanupFiles, applyHandlers, tryBlock, h1, h2, h3]

/-- C5 witness at a concrete session environment whose ffmpeg run fails. -/
theorem c5_transcode_failure_witness :
    envFfmpegFail.mkInExc = none ∧ envFfmpegFail.mkDownExc = none ∧
    envFfmpegFail.transcodeExit ≠ 0 ∧
    (sessionRun envFfmpegFail).messages =
      [Msg.infoStandardizing, Msg.errFfmpegFailed,
        Msg.errFfmpegDetails envFfmpegFail.transcodeStderr] ∧
    (sessionRun envFfmpegFail).detectionEntered = false :=
  ⟨rfl, rfl, by decide,
    (c5_transcode_failure envFfmpegFail rfl rfl (by decide)).1,
    (c5_transcode_failure envFfmpegFail rfl rfl (by decide)).2.2.1⟩

/-- When process_video returns normally without having reached the write loop,
no exception is pending, and the session shows the errNoOutput message after
the two info messages and whatever process_video showed. -/
theorem tryBlock_no_loop (env : Env) (p : ProcOut)
    (h1 : env.mkInExc = none) (h2 : env.mkDownExc = none)
    (h3 : env.transcodeExit = 0) (h4 : env.mkOutExc = none)
    (hp : process_video env.downPath env.cap env.writerOpened env.inferExc env.model =
      Except.ok p)
    (hr : p.reachedLoop = false) :
    (tryBlock env).exc = none ∧
    (sessionRun env).messages =
      [Msg.infoStandardizing, Msg.infoProcessing] ++ p.messages ++ [Msg.errNoOutput] ∧
    (sessionRun env).videoShown = false := by
  refine ⟨?_, ?_, ?_⟩
  · simp [tryBlock, h1, h2, h3, h4, hp, hr]
  · simp [sessionRun, cleanupFiles, applyHandlers, tryBlock, h1, h2, h3, h4, hp, hr]
  · simp [sessionRun, cleanupFiles, applyHandlers, tryBlock, h1, h2, h3, h4, hp, hr]

/-- C10: when the earlier stages succeed but the capture of the transcoded
file or the output writer cannot be opened, process_video returns normally
(ok, not an exception) with no frame written, no exception reaches the
handlers, and the orchestrator goes on to the output check and reports the
failure with the errNoOutput message instead of via an exception. -/
theorem c10_silent_failure_reporting (env : Env)
    (h1 : env.mkInExc = none) (h2 : env.mkDownExc = none)
    (h3 : env.transcodeExit = 0) (h4 : env.mkOutExc = none)
    (h5 : env.cap.opened = false ∨ env.writerOpened = false) :
    ∃ p : ProcOut,
      process_video env.downPath env.cap env.writerOpened env.inferExc env.model =
        Except.ok p ∧
      p.written = [] ∧
      (tryBlock env).exc = none ∧
      (sessionRun env).messages =
        [Msg.infoStandardizing, Msg.infoProcessing] ++ p.messages ++ [Msg.errNoOutput] ∧
      (sessionRun env).videoShown = false := by
  rcases h5 with h5 | h5
  · have hp : process_video env.downPath env.cap env.writerOpened env.inferExc env.model =
        Except.ok { messages := [.errOpenInput env.downPath], written := [],
                    outWidth := 0, outHeight := 0, reachedLoop := false } := by
      simp [process_video, h5]
    obtain ⟨e1, e2, e3⟩ := tryBlock_no_loop env _ h1 h2 h3 h4 hp rfl
    exact ⟨_, hp, rfl, e1, e2, e3⟩
  · cases hcap : env.cap.opened
    · have hp : process_video env.downPath env.cap env.writerOpened env.inferExc env.model =
          Except.ok { messages := [.errOpenInput env.downPath], written := [],
                      outWidth := 0, outHeight := 0, reachedLoop := false } := by
        simp [process_video, hcap]
      obtain ⟨e1, e2, e3⟩ := tryBlock_no_loop env _ h1 h2 h3 h4 hp rfl
      exact ⟨_, hp, rfl, e1, e2, e3⟩
    · have hp : process_video env.downPath env.cap env.writerOpened env.inferExc env.model =
          Except.ok { messages := [.errOpenWriter], written := [],
                      outWidth := env.cap.width, outHeight := env.cap.height,
                      reachedLoop := false } := by
        simp [process_video, hcap, h5]
      obtain ⟨e1, e2, e3⟩ := tryBlock_no_loop env _ h1 h2 h3 h4 hp rfl
      exact ⟨_, hp, rfl, e1, e2, e3⟩

/-- C10 witness at a concrete session environment whose capture fails. -/
theorem c10_silent_failure_reporting_witness :
    (envCapFail.mkInExc = none ∧ envCapFail.mkDownExc = none ∧
      envCapFail.transcodeExit = 0 ∧ envCapFail.mkOutExc = none ∧
      envCapFail.cap.opened = false) ∧
    (∃ p : ProcOut,
      process_video envCapFail.downPath envCapFail.cap envCapFail.writerOpened
          envCapFail.inferExc envCapFail.model = Except.ok p ∧
      p.written = [] ∧
      (tryBlock envCapFail).exc = none ∧
      (sessionRun envCapFail).messages =
        [Msg.infoStandardizing, Msg.infoProcessing] ++ p.messages ++ [Msg.errNoOutput] ∧
      (sessionRun envCapFail).videoShown = false) :=
  ⟨⟨rfl, rfl, rfl, rfl, rfl⟩,
    c10_silent_failure_reporting envCapFail rfl rfl rfl rfl (Or.inl rfl)⟩

/-- The even-rounding of the scale filter always yields an even number. -/
theorem roundToEven_even (num den : Nat) : 2 ∣ roundToEven num den :=
  ⟨(num + den) / (2 * den), rfl⟩

/-- The proportionally scaled, even-rounded side never exceeds 1280 when the
exact proportional value is at most 1280. -/
theorem roundToEven_le_1280 (num den : Nat) (hden : 0 < den) (h : num ≤ 1280 * den) :
    roundToEven num den ≤ 1280 := by
  have h1 : (num + den) / (2 * den) < 641 :=
    (Nat.div_lt_iff_lt_mul (by omega)).mpr (by omega)
  unfold roundToEven
  set q := (num + den) / (2 * den) with hq
  omega

/-- The even-rounded value is within one of the exact proportional value
num / den: a two-sided bound cleared of division. -/
theorem roundToEven_close (num den : Nat) (hden : 0 < den) :
    roundToEven num den * den ≤ num + den ∧ num < (roundToEven num den + 1) * den := by
  have hdm := Nat.div_add_mod (num + den) (2 * den)
  have hmlt : (num + den) % (2 * den) < 2 * den := Nat.mod_lt _ (by omega)
  unfold roundToEven
  set q := (num + den) / (2 * den) with hq
  set r := (num + den) % (2 * den) with hr
  constructor
  · nlinarith [hdm, hmlt]
  · nlinarith [hdm, hmlt]

/-- C3: the fixed ffmpeg scale argument maps every input so that for landscape
input (aspect ratio above 1, that is ih < iw) the output width is 1280 and the
height is the proportionally scaled value rounded to even, for portrait (and
square) input the output height is 1280 and the width is the proportionally
scaled value rounded to even, and in all cases both output dimensions are even
and the longer side equals 1280; rounding keeps the short side within one of
the exact proportional value. -/
theorem c3_scale_filter_geometry (iw ih : Nat) (hw : 0 < iw) (hh : 0 < ih) :
    2 ∣ (scaleFilter iw ih).1 ∧ 2 ∣ (scaleFilter iw ih).2 ∧
    max (scaleFilter iw ih).1 (scaleFilter iw ih).2 = 1280 ∧
    (ih < iw →
      (scaleFilter iw ih).1 = 1280 ∧
      (scaleFilter iw ih).2 * iw ≤ 1280 * ih + iw ∧
      1280 * ih < ((scaleFilter iw ih).2 + 1) * iw) ∧
    (¬ ih < iw →
      (scaleFilter iw ih).2 = 1280 ∧
      (scaleFilter iw ih).1 * ih ≤ 1280 * iw + ih ∧
      1280 * iw < ((scaleFilter iw ih).1 + 1) * ih) := by
  by_cases hlt : ih < iw
  · have e1 : scaleFilter iw ih = (1280, roundToEven (1280 * ih) iw) := by
      simp [scaleFilter, hlt]
    have h1 : roundToEven (1280 * ih) iw ≤ 1280 :=
      roundToEven_le_1280 (1280 * ih) iw hw (by omega)
    have h2 := roundToEven_close (1280 * ih) iw hw
    rw [e1]
    exact ⟨⟨640, rfl⟩, roundToEven_even _ _, Nat.max_eq_left h1,
      fun _ => ⟨rfl, h2.1, h2.2⟩, fun hc => absurd hlt hc⟩
  · have e1 : scaleFilter iw ih = (roundToEven (1280 * iw) ih, 1280) := by
      simp [scaleFilter, hlt]
    have h1 : roundToEven (1280 * iw) ih ≤ 1280 :=
      roundToEven_le_1280 (1280 * iw) ih hh (by omega)
    have h2 := roundToEven_close (1280 * iw) ih hh
    rw [e1]
    exact ⟨roundToEven_even _ _, ⟨640, rfl⟩, Nat.max_eq_right h1,
      fun hc => absurd hc hlt, fun _ => ⟨rfl, h2.1, h2.2⟩⟩

/-- C3 witness: the spec's two scenarios, 1920x1080 landscape maps to
1280x720 and 1080x1920 portrait maps to 720x1280, with the general geometry
facts obtained from the theorem. -/
theorem c3_scale_filter_geometry_witness :
    ((0 : Nat) < 1920 ∧ (0 : Nat) < 1080) ∧
    (2 ∣ (scaleFilter 1920 1080).1 ∧ 2 ∣ (scaleFilter 1920 1080).2 ∧
      max (scaleFilter 1920 1080).1 (scaleFilter 1920 1080).2 = 1280) ∧
    scaleFilter 1920 1080 = (1280, 720) ∧ scaleFilter 1080 1920 = (720, 1280) :=
  ⟨⟨by decide, by decide⟩,
    ⟨(c3_scale_filter_geometry 1920 1080 (by decide) (by decide)).1,
      (c3_scale_filter_geometry 1920 1080 (by decide) (by decide)).2.1,
      (c3_scale_filter_geometry 1920 1080 (by decide) (by decide)).2.2.1⟩,
    by decide, by decide⟩

/-- C6: on a path not yet cached, load_model fails - with the model-load
error propagating out of the YOLO constructor - whenever the path does not
exist or the file there is not a valid model artifact, and otherwise returns
a model handle, recording it in the cache. -/
theorem c6_load_model_contract (fsExists validArtifact : String → Bool)
    (st : CacheState) (path : String) (hfresh : st.cache.lookup path = none) :
    ((fsExists path = false ∨ validArtifact path = false) →
      ∃ e, load_model fsExists validArtifact st path = (st, Except.error e)) ∧
    (fsExists path = true → validArtifact path = true →
      ∃ h : ModelHandle, load_model fsExists validArtifact st path =
        ({ cache := (path, h) :: st.cache, loads := st.loads + 1 }, Except.ok h)) := by
  constructor
  · intro hbad
    refine ⟨⟨"invalid or missing model artifact: " ++ path⟩, ?_⟩
    have hy : yoloLoad fsExists validArtifact path st.loads =
        Except.error ⟨"invalid or missing model artifact: " ++ path⟩ := by
      rcases hbad with hb | hb <;> simp [yoloLoad, hb]
    simp [load_model, hfresh, hy]
  · intro hf hv
    refine ⟨⟨path, st.loads⟩, ?_⟩
    have hy : yoloLoad fsExists validArtifact path st.loads =
        Except.ok ⟨path, st.loads⟩ := by
      simp [yoloLoad, hf, hv]
    simp [load_model, hfresh, hy]

/-- C6 witness: loading from a file system where the path is absent fails. -/
theorem c6_load_model_contract_witness :
    ((⟨[], 0⟩ : CacheState).cache.lookup ("best.pt") = none ∧
      (fun (_ : String) => false) ("best.pt") = false) ∧
    (∃ e, load_model (fun _ => false) (fun _ => true) ⟨[], 0⟩ ("best.pt") =
      (⟨[], 0⟩, Except.error e)) :=
  ⟨⟨rfl, rfl⟩,
    (c6_load_model_contract (fun _ => false) (fun _ => true) ⟨[], 0⟩ ("best.pt") rfl).1
      (Or.inl rfl)⟩

/-- A failed association-list lookup means the key is absent from the keys. -/
theorem lookup_none_not_key (p : String) (l : List (String × ModelHandle))
    (hl : l.lookup p = none) : p ∉ l.map Prod.fst := by
  induction l with
  | nil => simp
  | cons a t ih =>
    obtain ⟨k, v⟩ := a
    simp only [List.lookup] at hl
    split at hl
    · exact Option.noConfusion hl
    · rename_i heq
      simp only [List.map_cons, List.mem_cons]
      rintro (he | hm)
      · subst he
        simp at heq
      · exact ih hl hm

/-- C7: once load_model has returned a handle for a path, every later call
with the same path returns that cached handle from the unchanged cache state,
performing no new underlying load; the handle is exactly the cache entry for
the path; and every successful call preserves the invariant that the cache
holds at most one entry per distinct path. -/
theorem c7_cache_behaviour (fsExists validArtifact : String → Bool)
    (st st1 : CacheState) (path : String) (h : ModelHandle)
    (hcall : load_model fsExists validArtifact st path = (st1, Except.ok h)) :
    load_model fsExists validArtifact st1 path = (st1, Except.ok h) ∧
    st1.cache.lookup path = some h ∧
    (CacheKeysNodup st → CacheKeysNodup st1) := by
  cases hl : st.cache.lookup path with
  | some h0 =>
    simp only [load_model, hl, Prod.mk.injEq, Except.ok.injEq] at hcall
    obtain ⟨hst, hh⟩ := hcall
    subst hst
    subst hh
    refine ⟨?_, hl, fun hn => hn⟩
    simp [load_model, hl]
  | none =>
    cases hy : yoloLoad fsExists validArtifact path st.loads with
    | ok h0 =>
      simp only [load_model, hl, hy, Prod.mk.injEq, Except.ok.injEq] at hcall
      obtain ⟨hst, hh⟩ := hcall
      subst hh
      subst hst
      refine ⟨?_, ?_, fun hn => ?_⟩
      · simp [load_model, List.lookup]
      · simp [List.lookup]
      · unfold CacheKeysNodup at *
        simp only [List.map_cons]
        exact List.nodup_cons.mpr ⟨lookup_none_not_key path st.cache hl, hn⟩
    | error e =>
      simp only [load_model, hl, hy, Prod.mk.injEq] at hcall
      simp at hcall

/-- C7 witness: a concrete first load followed by a second call returning the
cached handle from the unchanged state. -/
theorem c7_cache_behaviour_witness :
    load_model (fun _ => true) (fun _ => true) ⟨[], 0⟩ ("best.pt") =
      (⟨[(("best.pt"), ⟨("best.pt"), 0⟩)], 1⟩, Except.ok ⟨("best.pt"), 0⟩) ∧
    load_model (fun _ => true) (fun _ => true)
        ⟨[(("best.pt"), ⟨("best.pt"), 0⟩)], 1⟩ ("best.pt") =
      (⟨[(("best.pt"), ⟨("best.pt"), 0⟩)], 1⟩, Except.ok ⟨("best.pt"), 0⟩) :=
  ⟨rfl,
    (c7_cache_behaviour (fun _ => true) (fun _ => true) ⟨[], 0⟩
      ⟨[(("best.pt"), ⟨("best.pt"), 0⟩)], 1⟩ ("best.pt") ⟨("best.pt"), 0⟩ rfl).1⟩
